import Mathlib

/-!
Verification development for the ableton-mcp repository.

The repository has two source files:
* AbletonMCP_Remote_Script/__init__.py : a socket server embedded in the
  Ableton Live host.  Per connection, _handle_client accumulates received
  bytes in a string buffer, attempts a whole-buffer JSON parse after every
  read, dispatches a decoded command through _process_command, and writes
  the JSON response back before reading again.  _process_command routes a
  command type either to a direct (read-only) handler, or — for the fixed
  list of state-mutating commands — schedules a task on the Live main
  thread via schedule_message and waits on a result queue with a 10.0
  second ceiling.
* MCP_Server/server.py : the client.  AbletonConnection.receive_full_response
  reassembles a response from chunks, attempting a whole-accumulator JSON
  parse after every chunk; AbletonConnection.send_command frames a command,
  classifies it as state-modifying or not, manages socket timeouts and
  settle delays, and converts failures into raised errors, invalidating the
  cached socket in its exception handlers.

The definitions below are shallow embeddings of those functions.  The
domain command bodies (track/clip/device manipulation against the Live
object model) are out of scope and are abstracted as an oracle parameter;
the JSON library is abstracted as a parse-function parameter where only
control flow around it matters.  All timeout and delay constants are in
seconds, represented as rationals.
-/

/-- JSON values, the data carried in command parameters and results. -/
inductive JVal where
  | str (s : String)
  | num (q : ℚ)
  | bool (b : Bool)
  | null
  | arr (vs : List JVal)
  | obj (fields : List (String × JVal))

/-- A Python dict with string keys, as used for commands and responses. -/
abbrev JDict := List (String × JVal)

/-- Python dict assignment d[k] = v : replace the value of an existing key
in place (keeping insertion order), or append a new key at the end. -/
def dset : JDict → String → JVal → JDict
  | [], k, v => [(k, v)]
  | (k', v') :: rest, k, v =>
    if k' == k then (k', v) :: rest else (k', v') :: dset rest k v

/-- Python dict lookup d.get(k) with no default: the value at k, if present. -/
def dget? : JDict → String → Option JVal
  | [], _ => none
  | (k', v) :: rest, k => if k' == k then some v else dget? rest k

/-- Python dict lookup d.get(k, default). -/
def dget (d : JDict) (k : String) (dflt : JVal) : JVal :=
  (dget? d k).getD dflt

namespace RemoteScript

/-- A decoded Command: the dict sent by the client, with its type string and
its params mapping (AbletonMCP_Remote_Script/__init__.py lines 212-213). -/
structure Cmd where
  type : String
  params : JDict

/-- Oracle abstracting the out-of-scope domain command bodies (the
self._xxx methods and their parameter extraction): given the host state,
the command type and the raw params dict, it returns the possibly mutated
host state together with either a result value or the message of a raised
exception. -/
def Oracle (σ : Type) := σ → String → JDict → σ × Except String JVal

/-- The direct (read-only) command types checked before the marshalled
list in _process_command (lines 223-257). -/
def directCommands1 : List String :=
  ["get_session_info", "get_application_info", "get_application_view_state",
   "get_application_process_usage", "get_application_version",
   "get_application_document", "list_control_surfaces", "list_scenes",
   "get_track_info", "get_device_details", "find_device_by_name",
   "get_clip_info", "list_locators", "list_return_tracks"]

/-- The command types that modify Live state and are scheduled on the main
thread (the list at lines 259-284). -/
def marshalledCommands : List String :=
  ["create_midi_track", "create_audio_track", "set_track_name",
   "create_clip", "add_notes_to_clip", "set_clip_name",
   "set_tempo", "set_signature_denominator", "set_signature_numerator",
   "fire_clip", "stop_clip", "fire_scene",
   "create_scene", "rename_scene", "write_automation", "show_message",
   "create_locator", "set_song_position", "set_send_level",
   "start_playback", "stop_playback", "load_browser_item",
   "get_device_parameters", "set_device_parameter", "delete_device",
   "set_record_mode", "continue_playing", "jump_by", "set_back_to_arranger",
   "set_start_time", "set_metronome", "set_clip_trigger_quantization",
   "set_loop", "set_loop_region", "play_selection", "jump_to_next_cue",
   "jump_to_prev_cue", "toggle_cue_at_current", "re_enable_automation",
   "set_arrangement_overdub", "set_session_automation_record",
   "trigger_session_record",
   "duplicate_track_clip_to_arrangement", "clear_arrangement",
   "rename_cue_point", "set_current_song_time_beats", "stop_all_clips",
   "jump_to_cue", "jump_by_beats",
   "press_current_dialog_button",
   "application_view_focus_view", "application_view_hide_view",
   "application_view_is_view_visible", "application_view_scroll_view",
   "application_view_show_view", "application_view_toggle_browse",
   "application_view_zoom_view", "application_view_available_main_views"]

/-- The direct (read-only) command types checked after the marshalled list
(lines 512-532: browser queries and get_current_song_time_beats). -/
def directCommands2 : List String :=
  ["get_browser_item", "get_browser_categories", "get_browser_items",
   "get_browser_tree", "get_browser_items_at_path",
   "get_current_song_time_beats"]

/-- The response dict as initialized at lines 216-219. -/
def initResponse : JDict :=
  [("status", JVal.str "success"), ("result", JVal.obj [])]

/-- The response dict after the two error-path assignments
response dot status = error and response dot message = m applied to the
initialized response (so the empty result mapping is retained). -/
def errDict (m : String) : JDict :=
  dset (dset initResponse "status" (JVal.str "error")) "message" (JVal.str m)

/-- Outcome of a direct command branch of _process_command: the body call
assigns the result on success; a raised exception reaches the outer
except clause (lines 536-542), which flips status to error and records
the message. -/
def runDirect {σ : Type} (exec : Oracle σ) (st : σ) (ct : String) (ps : JDict) :
    σ × JDict :=
  match exec st ct ps with
  | (st', Except.ok v) => (st', dset initResponse "result" v)
  | (st', Except.error e) => (st', errDict e)

/-- The item put on the response queue by main_thread_task (lines 488 and
492): a success dict carrying the result, or an error dict carrying the
message of the raised exception. -/
inductive TaskOutcome where
  | success (v : JVal)
  | failure (m : String)

/-- main_thread_task (lines 289-492): run the command body inside its own
try, capturing either the result or the exception message. -/
def mainThreadTask {σ : Type} (exec : Oracle σ) (st : σ) (ct : String) (ps : JDict) :
    σ × TaskOutcome :=
  match exec st ct ps with
  | (st', Except.ok v) => (st', TaskOutcome.success v)
  | (st', Except.error e) => (st', TaskOutcome.failure e)

/-- Merging a task outcome into the response dict (lines 504-508): on error
flip status and add the message, on success assign the result. -/
def mergeTaskResponse (r : JDict) : TaskOutcome → JDict
  | TaskOutcome.success v => dset r "result" v
  | TaskOutcome.failure m =>
    dset (dset r "status" (JVal.str "error")) "message" (JVal.str m)

/-- The ceiling passed to response_queue.get at line 503, in seconds. -/
def queueGetTimeoutSeconds : ℚ := 10

/-- Whether the enqueued task outcome reaches the result queue before the
ceiling elapses: the delay is the time until the Live main thread executes
the scheduled task (none meaning it never runs, for example because the
main thread is permanently busy). -/
def resultArrives : Option ℚ → Bool
  | some d => decide (d ≤ queueGetTimeoutSeconds)
  | none => false

/-- Result of the marshalled-command block (lines 285-511) as observed when
the submitting connection-handler thread returns: the merged response
dict, the host state at that moment, the work items handed to the host
scheduler that have not yet executed, and the items that were placed in
the result queue up to the moment queue.get returned or timed out. -/
structure MarshalOut (σ : Type) where
  response : JDict
  state : σ
  pending : List String
  queued : List TaskOutcome

/-- The marshalled-command block: schedule_message normally enqueues the
task for the main thread; when the caller is already the main thread it
raises AssertionError and the except clause (lines 497-499) runs the task
synchronously in place.  The submitter then waits on the result queue
with the fixed ceiling; on queue.Empty it synthesizes the timeout error
response (lines 509-511) without cancelling the scheduled task. -/
def runMarshalled {σ : Type} (exec : Oracle σ) (onMain : Bool) (delay : Option ℚ)
    (st : σ) (ct : String) (ps : JDict) : MarshalOut σ :=
  if onMain then
    let r := mainThreadTask exec st ct ps
    ⟨mergeTaskResponse initResponse r.2, r.1, [], [r.2]⟩
  else if resultArrives delay then
    let r := mainThreadTask exec st ct ps
    ⟨mergeTaskResponse initResponse r.2, r.1, [], [r.2]⟩
  else
    ⟨dset (dset initResponse "status" (JVal.str "error")) "message"
        (JVal.str "Timeout waiting for operation to complete"),
      st, [ct], []⟩

/-- Scheduling environment for one dispatch: whether the calling thread is
already the Live main thread, and how long until the main thread would
execute a newly scheduled task. -/
structure MEnv where
  onMain : Bool
  delay : Option ℚ

/-- Result of _process_command: the response dict it returns, the host
state when it returns, and the scheduled work items still outstanding. -/
structure ProcOut (σ : Type) where
  response : JDict
  state : σ
  pending : List String

/-- _process_command (lines 210-542): route the command type through the
fixed table — the first batch of direct reads, then the marshalled list,
then the remaining direct reads — and otherwise produce the unknown
command error response. -/
def processCommand {σ : Type} (exec : Oracle σ) (env : MEnv) (st : σ) (cmd : Cmd) :
    ProcOut σ :=
  if directCommands1.contains cmd.type then
    let r := runDirect exec st cmd.type cmd.params
    ⟨r.2, r.1, []⟩
  else if marshalledCommands.contains cmd.type then
    let m := runMarshalled exec env.onMain env.delay st cmd.type cmd.params
    ⟨m.response, m.state, m.pending⟩
  else if directCommands2.contains cmd.type then
    let r := runDirect exec st cmd.type cmd.params
    ⟨r.2, r.1, []⟩
  else
    ⟨errDict ("Unknown command: " ++ cmd.type), st, []⟩

/-- The per-connection loop of _handle_client (lines 140-177) on the normal
path (running stays true, sends succeed): append each received chunk to
the buffer, attempt a whole-buffer parse; on success clear the buffer,
dispatch the command and emit its response before reading again; on parse
failure keep accumulating.  The parse function abstracts json.loads on
the whole buffer; the returned list is the sequence of responses written
back, in order. -/
def handleClient {σ : Type} (parse : String → Option Cmd) (exec : Oracle σ)
    (env : MEnv) : σ → String → List String → List JDict × σ
  | st, _, [] => ([], st)
  | st, buffer, d :: rest =>
    match parse (buffer ++ d) with
    | some cmd =>
      let p := processCommand exec env st cmd
      let r := handleClient parse exec env p.state "" rest
      (p.response :: r.1, r.2)
    | none => handleClient parse exec env st (buffer ++ d) rest

/-- The sequence of commands the framing rule of _handle_client decodes
from a chunk sequence, independent of dispatch. -/
def extractCommands (parse : String → Option Cmd) : String → List String → List Cmd
  | _, [] => []
  | buffer, d :: rest =>
    match parse (buffer ++ d) with
    | some cmd => cmd :: extractCommands parse "" rest
    | none => extractCommands parse (buffer ++ d) rest

/-- Dispatching a list of commands one after the other, threading the host
state, and collecting one response per command in order. -/
def processAll {σ : Type} (exec : Oracle σ) (env : MEnv) : σ → List Cmd → List JDict × σ
  | st, [] => ([], st)
  | st, c :: cs =>
    let p := processCommand exec env st c
    let r := processAll exec env p.state cs
    (p.response :: r.1, r.2)

end RemoteScript

namespace MCPClient

/-- The outcome of one recv call in the chunked-receive loop of
AbletonConnection.receive_full_response (server.py lines 53-77): a chunk
of bytes, an empty read (peer closed), a socket timeout, or a connection
level error (ConnectionError, BrokenPipeError, ConnectionResetError). -/
inductive RecvEvent where
  | chunk (s : String)
  | closed
  | timedOut
  | connFail (m : String)

/-- The code after the receive loop (server.py lines 82-92): with at least
one chunk accumulated, return the joined data when it parses as JSON and
otherwise raise, and with no chunks raise the no-data error. -/
def finishReceive (parse : String → Bool) (chunks : List String) : Except String String :=
  if chunks.isEmpty then Except.error "No data received"
  else
    let data := String.join chunks
    if parse data then Except.ok data
    else Except.error "Incomplete JSON response received"

/-- receive_full_response (server.py lines 47-92): consume recv outcomes in
order, appending chunks and attempting a whole-accumulator JSON parse
after each; return as soon as the accumulator parses.  A timeout breaks
out to the post-loop code; an empty read with no chunks raises, and with
chunks breaks out to the post-loop code; a connection error propagates.
The result is none when the event list is exhausted with the loop still
reading. -/
def receiveFullResponse (parse : String → Bool) :
    List RecvEvent → List String → Option (Except String String)
  | [], _ => none
  | RecvEvent.chunk s :: rest, chunks =>
    let chunks' := chunks ++ [s]
    if parse (String.join chunks') then some (Except.ok (String.join chunks'))
    else receiveFullResponse parse rest chunks'
  | RecvEvent.closed :: _, chunks =>
    if chunks.isEmpty then
      some (Except.error "Connection closed before receiving any data")
    else some (finishReceive parse chunks)
  | RecvEvent.timedOut :: _, chunks => some (finishReceive parse chunks)
  | RecvEvent.connFail m :: _, _ => some (Except.error m)

/-- The list of state-modifying command types of the client
(server.py lines 105-126). -/
def modifyingCommands : List String :=
  ["create_midi_track", "create_audio_track", "set_track_name",
   "create_clip", "add_notes_to_clip", "set_clip_name",
   "set_tempo", "set_signature_denominator", "set_signature_numerator",
   "fire_clip", "stop_clip", "set_device_parameter",
   "start_playback", "stop_playback", "load_instrument_or_effect",
   "set_record_mode", "continue_playing", "jump_by", "set_back_to_arranger",
   "set_start_time", "set_metronome", "set_clip_trigger_quantization",
   "set_loop", "set_loop_region", "play_selection", "jump_to_next_cue",
   "jump_to_prev_cue", "toggle_cue_at_current", "re_enable_automation",
   "set_arrangement_overdub", "set_session_automation_record",
   "trigger_session_record", "create_locator", "set_song_position", "set_send_level",
   "duplicate_track_clip_to_arrangement", "clear_arrangement",
   "rename_cue_point", "set_current_song_time_beats", "stop_all_clips",
   "jump_to_cue", "jump_by_beats",
   "application_view_focus_view", "application_view_hide_view",
   "application_view_scroll_view", "application_view_show_view",
   "application_view_toggle_browse", "application_view_zoom_view"]

/-- is_modifying_command of send_command (server.py line 105). -/
def isModifyingCommand (ct : String) : Bool := modifyingCommands.contains ct

/-- The timeout value, in seconds, that send_command passes to
sock.settimeout before receiving (server.py lines 140-142). -/
def sendTimeoutSetting (ct : String) : ℚ :=
  if isModifyingCommand ct then 15 else 10

/-- The value receive_full_response passes to sock.settimeout on entry
(server.py line 50). -/
def receiveSocketTimeout : ℚ := 15

/-- The socket state the model tracks: the timeout currently set on it. -/
structure SockT where
  timeoutVal : ℚ

/-- The socket after the settimeout call of send_command at line 142. -/
def afterSendSetup (ct : String) : SockT := ⟨sendTimeoutSetting ct⟩

/-- The socket after the settimeout call at the entry of
receive_full_response (line 50), which runs before the first recv. -/
def atReceiveEntry (s : SockT) : SockT := { s with timeoutVal := receiveSocketTimeout }

/-- The timeout in effect during the recv calls of the response read for a
command of the given type: send_command sets its per-class value, then
receive_full_response overwrites it on entry. -/
def effectiveReceiveTimeout (ct : String) : ℚ :=
  (atReceiveEntry (afterSendSetup ct)).timeoutVal

/-- The sleep calls, in seconds, issued after sending the command and
before reading the response (server.py lines 136-138). -/
def settleDelayBefore (ct : String) : List ℚ :=
  if isModifyingCommand ct then [1/10] else []

/-- The sleep calls, in seconds, issued after the response exchange
(server.py lines 156-159). -/
def settleDelayAfter (ct : String) : List ℚ :=
  if isModifyingCommand ct then [1/10] else []

/-- What the receive-and-parse phase of send_command produced: a parsed
response dict, or one of the exception classes distinguished by the
except clauses at lines 162-179.  otherFail covers the plain Exceptions
raised from receive_full_response. -/
inductive RecvOutcome where
  | reply (r : JDict)
  | sockTimeout
  | connFailure (m : String)
  | decodeFailure (m : String)
  | otherFail (m : String)

/-- The exception classes the except chain of send_command distinguishes. -/
inductive PyExc where
  | timeoutExc
  | connExc (m : String)
  | decodeExc (m : String)
  | genericExc (m : String)

/-- The test response.get("status") == "error" at line 152. -/
def statusIsError (r : JDict) : Bool :=
  match dget? r "status" with
  | some (JVal.str s) => s == "error"
  | _ => false

/-- Python str rendering of a JSON value, used when the message field of an
error response is not a string; the claims only exercise string
messages, so the rendering of containers is schematic. -/
def jstr : JVal → String
  | JVal.str s => s
  | JVal.num q => toString q
  | JVal.bool b => cond b "True" "False"
  | JVal.null => "None"
  | JVal.arr _ => "list"
  | JVal.obj _ => "dict"

/-- str of the Exception raised at line 154, built from
response.get("message", "Unknown error from Ableton"). -/
def getMessageStr (r : JDict) : String :=
  match dget? r "message" with
  | some v => jstr v
  | none => "Unknown error from Ableton"

/-- The try body of send_command after the command bytes were written
(lines 144-161): parse the received data; a response whose status is
error raises a plain Exception carrying its message; otherwise the result
field is returned.  Transport failures surface as their exception class. -/
def sendTryBody (o : RecvOutcome) : Except PyExc JVal :=
  match o with
  | RecvOutcome.reply r =>
    if statusIsError r then Except.error (PyExc.genericExc (getMessageStr r))
    else Except.ok (dget r "result" (JVal.obj []))
  | RecvOutcome.sockTimeout => Except.error PyExc.timeoutExc
  | RecvOutcome.connFailure m => Except.error (PyExc.connExc m)
  | RecvOutcome.decodeFailure m => Except.error (PyExc.decodeExc m)
  | RecvOutcome.otherFail m => Except.error (PyExc.genericExc m)

/-- send_command (server.py lines 94-179) for an established connection:
the Except value raised or returned to the caller, paired with whether
the cached socket is retained (false models self.sock = None).  Every
except clause of the chain at lines 162-179 sets self.sock = None before
re-raising its wrapped message. -/
def sendCommand (_ct : String) (o : RecvOutcome) : Except String JVal × Bool :=
  match sendTryBody o with
  | Except.ok v => (Except.ok v, true)
  | Except.error PyExc.timeoutExc =>
    (Except.error "Timeout waiting for Ableton response", false)
  | Except.error (PyExc.connExc m) =>
    (Except.error ("Connection to Ableton lost: " ++ m), false)
  | Except.error (PyExc.decodeExc m) =>
    (Except.error ("Invalid response from Ableton: " ++ m), false)
  | Except.error (PyExc.genericExc m) =>
    (Except.error ("Communication error with Ableton: " ++ m), false)

end MCPClient

open RemoteScript MCPClient

/-- Claim C6: in the chunked-receive loop of receive_full_response, a
socket timeout with at least one chunk accumulated returns the joined
bytes exactly when they parse as valid JSON and raises otherwise; a
timeout with no chunk raises the no-data error, and a peer close before
any chunk raises the connection-closed error. -/
theorem c6_receive_timeout_paths (parse : String → Bool)
    (events : List RecvEvent) (chunks : List String) :
    receiveFullResponse parse (RecvEvent.timedOut :: events) chunks =
      some (if chunks.isEmpty then Except.error "No data received"
        else if parse (String.join chunks) then Except.ok (String.join chunks)
        else Except.error "Incomplete JSON response received") ∧
    receiveFullResponse parse (RecvEvent.closed :: events) [] =
      some (Except.error "Connection closed before receiving any data") := by
  constructor
  · simp only [receiveFullResponse, finishReceive]
  · simp [receiveFullResponse]

/-- Claim C7 counterexample: set_tempo is classified as state-modifying and
get_session_info is not, yet the timeout in effect during the response
recv calls is the same for both (receive_full_response overwrites the
socket timeout with 15.0 on entry), so the client does not apply a longer
effective response-receive timeout to mutating commands. -/
theorem c7_counterexample_effective_timeout :
    isModifyingCommand "set_tempo" = true ∧
    isModifyingCommand "get_session_info" = false ∧
    effectiveReceiveTimeout "set_tempo" = effectiveReceiveTimeout "get_session_info" ∧
    ¬ effectiveReceiveTimeout "get_session_info" < effectiveReceiveTimeout "set_tempo" := by
  refine ⟨rfl, rfl, rfl, ?_⟩
  show ¬ (15 : ℚ) < (15 : ℚ)
  exact lt_irrefl 15

/-- Claim C7 as amended: for every command type, send_command sets the
socket timeout to 15.0 seconds when the type is state-modifying and to
10.0 seconds otherwise, and sleeps a fixed 0.1 second settle delay after
sending and again after the response exchange exactly for the modifying
class — but receive_full_response unconditionally resets the socket
timeout to 15.0 on entry, so the timeout actually in effect while
receiving the response is 15.0 seconds for both classes. -/
theorem c7_amended_timeout_and_settle (ct : String) :
    afterSendSetup ct = ⟨if isModifyingCommand ct then 15 else 10⟩ ∧
    settleDelayBefore ct = (if isModifyingCommand ct then [(1 / 10 : ℚ)] else []) ∧
    settleDelayAfter ct = (if isModifyingCommand ct then [(1 / 10 : ℚ)] else []) ∧
    effectiveReceiveTimeout ct = 15 :=
  ⟨rfl, rfl, rfl, rfl⟩

/-- Claim C8 counterexample: send_command, on receiving a Response whose
status is error, raises the message wrapped by the catch-all handler and
sets the cached socket to None (modelled by the final false), so a domain
error Response does invalidate the cached client link. -/
theorem c8_counterexample_error_reply_invalidates :
    sendCommand "get_track_info"
        (RecvOutcome.reply
          [("status", JVal.str "error"), ("result", JVal.obj []),
            ("message", JVal.str "Track index out of range")]) =
      (Except.error "Communication error with Ableton: Track index out of range",
        false) := by
  rfl

/-- Claim C8 as amended: a Response with status error makes send_command
raise a failure carrying the response message (wrapped as a communication
error by the catch-all handler) and invalidate the cached socket, exactly
as the connection-level failures do: socket timeouts, connection errors
and JSON decode failures all invalidate the cached socket, while only a
non-error Response leaves the cached link intact and returns its result
field. -/
theorem c8_amended_invalidation (ct : String) (r : JDict) (m m2 : String) :
    sendCommand ct (RecvOutcome.reply r) =
      (if statusIsError r then
          (Except.error ("Communication error with Ableton: " ++ getMessageStr r), false)
        else (Except.ok (dget r "result" (JVal.obj [])), true)) ∧
    sendCommand ct RecvOutcome.sockTimeout =
      (Except.error "Timeout waiting for Ableton response", false) ∧
    sendCommand ct (RecvOutcome.connFailure m) =
      (Except.error ("Connection to Ableton lost: " ++ m), false) ∧
    sendCommand ct (RecvOutcome.decodeFailure m2) =
      (Except.error ("Invalid response from Ableton: " ++ m2), false) := by
  refine ⟨?_, rfl, rfl, rfl⟩
  unfold sendCommand sendTryBody
  cases hs : statusIsError r <;> simp [hs]

/-- The handler loop equals framing followed by in-order dispatch: helper
for the ordering claim. -/
theorem handleClient_eq_processAll {σ : Type} (parse : String → Option Cmd)
    (exec : Oracle σ) (env : MEnv) :
    ∀ (chunks : List String) (st : σ) (buffer : String),
      handleClient parse exec env st buffer chunks =
        processAll exec env st (extractCommands parse buffer chunks)
  | [], st, buffer => rfl
  | d :: rest, st, buffer => by
    cases hp : parse (buffer ++ d) with
    | some cmd =>
      have ih := handleClient_eq_processAll parse exec env rest
        (processCommand exec env st cmd).state ""
      simp [handleClient, extractCommands, hp, processAll, ih]
    | none =>
      have ih := handleClient_eq_processAll parse exec env rest st (buffer ++ d)
      simp [handleClient, extractCommands, hp, ih]

/-- processAll emits exactly one response per command. -/
theorem processAll_length {σ : Type} (exec : Oracle σ) (env : MEnv) :
    ∀ (cs : List Cmd) (st : σ),
      (processAll exec env st cs).1.length = cs.length
  | [], _ => rfl
  | c :: cs, st => by
    simp [processAll, processAll_length exec env cs]

/-- Claim C9: on one connection the handler produces exactly one Response
per decoded Command and emits them in arrival order: the loop is equal to
extracting the command sequence from the chunk stream and dispatching the
commands one after the other, each response written before the next
command is read, and the number of responses equals the number of
commands. -/
theorem c9_responses_in_request_order {σ : Type} (parse : String → Option Cmd)
    (exec : Oracle σ) (env : MEnv) (st : σ) (buffer : String)
    (chunks : List String) :
    handleClient parse exec env st buffer chunks =
      processAll exec env st (extractCommands parse buffer chunks) ∧
    (handleClient parse exec env st buffer chunks).1.length =
      (extractCommands parse buffer chunks).length := by
  refine ⟨handleClient_eq_processAll parse exec env chunks st buffer, ?_⟩
  rw [handleClient_eq_processAll parse exec env chunks st buffer]
  exact processAll_length exec env _ st

/-- Claim C1: when the accumulated buffer parses as one complete JSON
value, the handler dispatches that command and resets the buffer to the
empty string — the continuation runs from an empty accumulator — so two
buffer states that parse to the same command (for example differing in
bytes after the end of the parsed value) produce identical behaviour from
then on: trailing bytes are discarded and never reach a later command. -/
theorem c1_parse_success_clears_buffer {σ : Type} (parse : String → Option Cmd)
    (exec : Oracle σ) (env : MEnv) (st : σ) (b1 b2 d1 d2 : String) (cmd : Cmd)
    (rest : List String)
    (hp1 : parse (b1 ++ d1) = some cmd) (hp2 : parse (b2 ++ d2) = some cmd) :
    handleClient parse exec env st b1 (d1 :: rest) =
      ((processCommand exec env st cmd).response ::
          (handleClient parse exec env (processCommand exec env st cmd).state "" rest).1,
        (handleClient parse exec env (processCommand exec env st cmd).state "" rest).2) ∧
    handleClient parse exec env st b1 (d1 :: rest) =
      handleClient parse exec env st b2 (d2 :: rest) := by
  constructor
  · simp [handleClient, hp1]
  · simp [handleClient, hp1, hp2]

/-- Claim C2: a command whose type is in none of the dispatch tables
produces the error response with message Unknown command followed by the
type, leaves the host state unchanged and schedules nothing, and the
handler loop goes on to read and process subsequent commands on the same
connection. -/
theorem c2_unknown_command_error {σ : Type} (exec : Oracle σ) (env : MEnv)
    (st : σ) (ct : String) (ps : JDict)
    (h1 : directCommands1.contains ct = false)
    (h2 : marshalledCommands.contains ct = false)
    (h3 : directCommands2.contains ct = false) :
    processCommand exec env st ⟨ct, ps⟩ =
      ⟨errDict ("Unknown command: " ++ ct), st, []⟩ ∧
    ∀ (parse : String → Option Cmd) (buffer d : String) (rest : List String),
      parse (buffer ++ d) = some (⟨ct, ps⟩ : Cmd) →
      handleClient parse exec env st buffer (d :: rest) =
        (errDict ("Unknown command: " ++ ct) :: (handleClient parse exec env st "" rest).1,
          (handleClient parse exec env st "" rest).2) := by
  have h1' : ct ∉ directCommands1 := by simpa using h1
  have h2' : ct ∉ marshalledCommands := by simpa using h2
  have h3' : ct ∉ directCommands2 := by simpa using h3
  have hproc : processCommand exec env st ⟨ct, ps⟩ =
      ⟨errDict ("Unknown command: " ++ ct), st, []⟩ := by
    simp [processCommand, h1', h2', h3']
  refine ⟨hproc, ?_⟩
  intro parse buffer d rest hp
  simp [handleClient, hp, hproc]

/-- Claim C3: for a marshalled command submitted from a connection-handler
thread, the wait on the result queue has the fixed ceiling of 10.0
seconds; when no outcome is enqueued within the ceiling, _process_command
returns the error response with message Timeout waiting for operation to
complete, the host state is unchanged at that moment, and the scheduled
work item is still outstanding — scheduled exactly once, neither
cancelled nor retried, free to execute and mutate the host later. -/
theorem c3_marshalled_timeout {σ : Type} (exec : Oracle σ) (delay : Option ℚ)
    (st : σ) (ct : String) (ps : JDict)
    (h1 : directCommands1.contains ct = false)
    (h2 : marshalledCommands.contains ct = true)
    (h3 : resultArrives delay = false) :
    processCommand exec ⟨false, delay⟩ st ⟨ct, ps⟩ =
      ⟨errDict "Timeout waiting for operation to complete", st, [ct]⟩ ∧
    queueGetTimeoutSeconds = 10 := by
  constructor
  · have h1' : ct ∉ directCommands1 := by simpa using h1
    have h2' : ct ∈ marshalledCommands := by simpa using h2
    simp [processCommand, h1', h2', runMarshalled, h3, errDict]
  · rfl

/-- Claim C4: when schedule_message raises AssertionError because the
caller is already the main thread, the work item runs synchronously in
place — nothing is left pending with the scheduler, the host state is
updated immediately — and its outcome is placed in the result queue, the
whole block behaving exactly as the enqueued case in which the outcome
arrives within the ceiling. -/
theorem c4_reentrant_sync_execution {σ : Type} (exec : Oracle σ)
    (delay : Option ℚ) (st : σ) (ct : String) (ps : JDict) :
    runMarshalled exec true delay st ct ps =
      runMarshalled exec false (some 0) st ct ps ∧
    (runMarshalled exec true delay st ct ps).queued =
      [(mainThreadTask exec st ct ps).2] ∧
    (runMarshalled exec true delay st ct ps).pending = [] ∧
    (runMarshalled exec true delay st ct ps).state =
      (mainThreadTask exec st ct ps).1 := by
    refine ⟨?_, rfl, rfl, rfl⟩
    have harr : resultArrives (some 0) = true := by
      simp [resultArrives, queueGetTimeoutSeconds]
    simp [runMarshalled, harr]

/-- Claim C5: an exception raised while extracting or executing a command
body (modelled by the oracle returning an error) is converted into the
error response carrying the exception message — by the outer except
clause for direct commands and by the try inside main_thread_task for
marshalled commands that got to run — it never escapes _process_command,
and the handler loop goes on reading further commands on the open
connection from the post-exception host state. -/
theorem c5_exception_converted {σ : Type} (exec : Oracle σ) (env : MEnv)
    (st st' : σ) (ct : String) (ps : JDict) (e : String)
    (hexec : exec st ct ps = (st', Except.error e))
    (hbranch : directCommands1.contains ct = true ∨
      (directCommands1.contains ct = false ∧ marshalledCommands.contains ct = false ∧
        directCommands2.contains ct = true) ∨
      (directCommands1.contains ct = false ∧ marshalledCommands.contains ct = true ∧
        (env.onMain = true ∨ resultArrives env.delay = true))) :
    (processCommand exec env st ⟨ct, ps⟩).response = errDict e ∧
    (processCommand exec env st ⟨ct, ps⟩).state = st' ∧
    ∀ (parse : String → Option Cmd) (buffer d : String) (rest : List String),
      parse (buffer ++ d) = some (⟨ct, ps⟩ : Cmd) →
      handleClient parse exec env st buffer (d :: rest) =
        (errDict e :: (handleClient parse exec env st' "" rest).1,
          (handleClient parse exec env st' "" rest).2) := by
  have hproc : processCommand exec env st ⟨ct, ps⟩ = ⟨errDict e, st', []⟩ := by
    rcases hbranch with h1 | ⟨h1, h2, h3⟩ | ⟨h1, h2, h34⟩
    · have h1' : ct ∈ directCommands1 := by simpa using h1
      simp [processCommand, h1', runDirect, hexec]
    · have h1' : ct ∉ directCommands1 := by simpa using h1
      have h2' : ct ∉ marshalledCommands := by simpa using h2
      have h3' : ct ∈ directCommands2 := by simpa using h3
      simp [processCommand, h1', h2', h3', runDirect, hexec]
    · have h1' : ct ∉ directCommands1 := by simpa using h1
      have h2' : ct ∈ marshalledCommands := by simpa using h2
      rcases h34 with honm | harr
      · simp [processCommand, h1', h2', runMarshalled, honm, mainThreadTask, hexec,
          mergeTaskResponse, errDict]
      · cases honm : env.onMain
        · simp [processCommand, h1', h2', runMarshalled, honm, harr, mainThreadTask,
            hexec, mergeTaskResponse, errDict]
        · simp [processCommand, h1', h2', runMarshalled, honm, mainThreadTask,
            hexec, mergeTaskResponse, errDict]
  refine ⟨by rw [hproc], by rw [hproc], ?_⟩
  intro parse buffer d rest hp
  simp [handleClient, hp, hproc]

/-- Every direct branch yields either the success shape or the error shape. -/
theorem runDirect_response_shape {σ : Type} (exec : Oracle σ) (st : σ)
    (ct : String) (ps : JDict) :
    (∃ v, (runDirect exec st ct ps).2 =
        [("status", JVal.str "success"), ("result", v)]) ∨
    (∃ m, (runDirect exec st ct ps).2 =
        [("status", JVal.str "error"), ("result", JVal.obj []),
          ("message", JVal.str m)]) := by
  unfold runDirect
  rcases hx : exec st ct ps with ⟨st2, e | v⟩
  · exact Or.inr ⟨e, rfl⟩
  · exact Or.inl ⟨v, rfl⟩

/-- Merging a task outcome into the initialized response yields either the
success shape or the error shape. -/
theorem mergeTaskShape (tr : TaskOutcome) :
    (∃ v, mergeTaskResponse initResponse tr =
        [("status", JVal.str "success"), ("result", v)]) ∨
    (∃ m, mergeTaskResponse initResponse tr =
        [("status", JVal.str "error"), ("result", JVal.obj []),
          ("message", JVal.str m)]) := by
  cases tr with
  | success v => exact Or.inl ⟨v, rfl⟩
  | failure m => exact Or.inr ⟨m, rfl⟩

/-- The marshalled block yields either the success shape or the error shape. -/
theorem runMarshalled_response_shape {σ : Type} (exec : Oracle σ) (onMain : Bool)
    (delay : Option ℚ) (st : σ) (ct : String) (ps : JDict) :
    (∃ v, (runMarshalled exec onMain delay st ct ps).response =
        [("status", JVal.str "success"), ("result", v)]) ∨
    (∃ m, (runMarshalled exec onMain delay st ct ps).response =
        [("status", JVal.str "error"), ("result", JVal.obj []),
          ("message", JVal.str m)]) := by
  unfold runMarshalled
  split
  · exact mergeTaskShape (mainThreadTask exec st ct ps).2
  · split
    · exact mergeTaskShape (mainThreadTask exec st ct ps).2
    · exact Or.inr ⟨"Timeout waiting for operation to complete", rfl⟩

/-- Every response of _process_command is either the success shape or the
error shape. -/
theorem processCommand_response_shape {σ : Type} (exec : Oracle σ) (env : MEnv)
    (st : σ) (cmd : Cmd) :
    (∃ v, (processCommand exec env st cmd).response =
        [("status", JVal.str "success"), ("result", v)]) ∨
    (∃ m, (processCommand exec env st cmd).response =
        [("status", JVal.str "error"), ("result", JVal.obj []),
          ("message", JVal.str m)]) := by
  unfold processCommand
  split
  · exact runDirect_response_shape exec st cmd.type cmd.params
  · split
    · exact runMarshalled_response_shape exec env.onMain env.delay st cmd.type cmd.params
    · split
      · exact runDirect_response_shape exec st cmd.type cmd.params
      · exact Or.inr ⟨"Unknown command: " ++ cmd.type, rfl⟩

/-- Claim C10: every response of _process_command keeps the result key it
was initialized with, and has exactly one of two shapes — the success
dict with status success, the (possibly updated) result mapping and no
message key, or the error dict that flips status to error, retains the
empty result mapping and adds a string message. -/
theorem c10_response_shape {σ : Type} (exec : Oracle σ) (env : MEnv)
    (st : σ) (cmd : Cmd) :
    (dget? (processCommand exec env st cmd).response "result").isSome = true ∧
    ((∃ v, (processCommand exec env st cmd).response =
        [("status", JVal.str "success"), ("result", v)]) ∨
      (∃ m, (processCommand exec env st cmd).response =
        [("status", JVal.str "error"), ("result", JVal.obj []),
          ("message", JVal.str m)])) := by
  have h := processCommand_response_shape exec env st cmd
  refine ⟨?_, h⟩
  rcases h with ⟨v, hv⟩ | ⟨m, hm⟩
  · rw [hv]; rfl
  · rw [hm]; rfl

/-- A concrete parse function for witnesses: recognizes the accumulated
buffer AB as a command with an unregistered type. -/
def wParse : String → Option Cmd :=
  fun s => if s == "AB" then some ⟨"unknown_thing", []⟩ else none

/-- A concrete parse function for witnesses: recognizes the accumulated
buffer GS as the get_session_info command. -/
def wParseGS : String → Option Cmd :=
  fun s => if s == "GS" then some ⟨"get_session_info", []⟩ else none

/-- A concrete oracle for witnesses over a Nat host state: every body call
succeeds with a null result and leaves the state unchanged. -/
def wExec : Oracle Nat := fun st _ _ => (st, Except.ok JVal.null)

/-- A concrete oracle for witnesses: every body call raises boom after
incrementing the host state. -/
def wExecFail : Oracle Nat := fun st _ _ => (st + 1, Except.error "boom")

/-- A concrete scheduling environment: a connection-handler thread, with
the main thread never executing scheduled tasks. -/
def wEnv : MEnv := ⟨false, none⟩

/-- Witness for claim C1 at concrete inputs: buffer A plus chunk B parses
to the same command as empty buffer plus chunk AB, and the handler
behaves identically on both, dispatching the command and continuing from
an empty buffer. -/
theorem c1_witness :
    handleClient wParse wExec wEnv 0 "A" ["B"] =
      ((processCommand wExec wEnv 0 ⟨"unknown_thing", []⟩).response ::
          (handleClient wParse wExec wEnv
            (processCommand wExec wEnv 0 ⟨"unknown_thing", []⟩).state "" []).1,
        (handleClient wParse wExec wEnv
          (processCommand wExec wEnv 0 ⟨"unknown_thing", []⟩).state "" []).2) ∧
    handleClient wParse wExec wEnv 0 "A" ["B"] =
      handleClient wParse wExec wEnv 0 "" ["AB"] :=
  c1_parse_success_clears_buffer wParse wExec wEnv 0 "A" "" "B" "AB"
    ⟨"unknown_thing", []⟩ [] rfl rfl

/-- Witness for claim C2 at a concrete input: the type unknown_thing is in
no dispatch table and yields exactly the unknown-command error response
with the state unchanged and nothing scheduled. -/
theorem c2_witness :
    processCommand wExec wEnv (0 : Nat) ⟨"unknown_thing", []⟩ =
      ⟨errDict ("Unknown command: " ++ "unknown_thing"), 0, []⟩ :=
  (c2_unknown_command_error wExec wEnv 0 "unknown_thing" [] rfl rfl rfl).1

/-- Witness for claim C3 at a concrete input: set_tempo submitted from a
connection-handler thread with the main thread never running the task
yields the timeout error response, unchanged state, and the work item
still scheduled. -/
theorem c3_witness :
    processCommand wExec ⟨false, none⟩ (0 : Nat) ⟨"set_tempo", []⟩ =
      ⟨errDict "Timeout waiting for operation to complete", 0, ["set_tempo"]⟩ ∧
    queueGetTimeoutSeconds = 10 :=
  c3_marshalled_timeout wExec none 0 "set_tempo" [] rfl rfl rfl

/-- Witness for claim C5 at a concrete input: a get_session_info body that
raises boom produces the error response carrying boom, and the handler
loop emits it and keeps going from the post-exception state. -/
theorem c5_witness :
    (processCommand wExecFail wEnv (0 : Nat) ⟨"get_session_info", []⟩).response =
      errDict "boom" ∧
    handleClient wParseGS wExecFail wEnv 0 "" ["GS"] =
      (errDict "boom" :: (handleClient wParseGS wExecFail wEnv 1 "" []).1,
        (handleClient wParseGS wExecFail wEnv 1 "" []).2) := by
  have h := c5_exception_converted wExecFail wEnv 0 1 "get_session_info" [] "boom"
    rfl (Or.inl rfl)
  exact ⟨h.1, h.2.2 wParseGS "" "GS" [] rfl⟩
